import Mathlib

/- Verification development for the communicator core of mpich
   (src/include/mpir_comm.h together with the async progress-thread
   translation unit appended to it).  The C code is shallowly embedded:
   pure computations become Lean functions, the global mutable state of
   the async manager becomes explicit state records, and the thread
   primitives (create / set-affinity / join) become environment inputs
   or recorded actions. -/

namespace Spec2Proof

/-- MPI_SUCCESS, the success return code (0 in mpi.h). -/
def MPI_SUCCESS : Int := 0

/-- MPI_ERR_OTHER, the error class used by this translation unit for
affinity-parse, thread-create and pinning failures. -/
def MPI_ERR_OTHER : Int := 15

/-- MPI thread-support levels are ordered SINGLE < FUNNELED < SERIALIZED <
MULTIPLE; MPI_THREAD_MULTIPLE is the largest (3 in mpi.h). -/
def MPI_THREAD_MULTIPLE : Nat := 3

/- ------------------------------------------------------------------ -/
/- C string helpers used by MPIDI_parse_progress_thread_affinity      -/
/- ------------------------------------------------------------------ -/

/-- The delimiter set " \n\t," passed to MPL_strsep by
MPIDI_parse_progress_thread_affinity. -/
def isDelim (c : Char) : Bool :=
  c = ' ' || c = '\n' || c = '\t' || c = ','

/-- Core of MPL_strsep: split off the initial token of a C string, i.e.
the maximal prefix free of delimiter characters.  Returns the token and
the remainder: some rest when a delimiter was consumed, none when the
string was exhausted (strsep then sets the string pointer to NULL). -/
def strsepOnce : List Char → (List Char × Option (List Char))
  | [] => ([], none)
  | c :: rest =>
    if isDelim c then ([], some rest)
    else
      let r := strsepOnce rest
      (c :: r.1, r.2)

/-- MPL_strsep on the current string pointer: returns none (NULL) when
the pointer itself is NULL, otherwise the next token and the updated
pointer. -/
def strsep : Option (List Char) → Option (List Char × Option (List Char))
  | none => none
  | some s => some (strsepOnce s)

/-- Whitespace characters skipped by C atoi. -/
def isSpaceC (c : Char) : Bool :=
  c = ' ' || c = '\t' || c = '\n' || c = '\x0b' || c = '\x0c' || c = '\r'

/-- Leading-whitespace skip performed by C atoi. -/
def skipSpaces : List Char → List Char
  | [] => []
  | c :: rest => if isSpaceC c then skipSpaces rest else c :: rest

/-- Decimal accumulation of a maximal leading digit run, as strtol does
after sign handling; stops at the first non-digit. -/
def digitsVal : List Char → Nat → Nat
  | [], acc => acc
  | c :: rest, acc =>
    if c.isDigit then digitsVal rest (10 * acc + (c.toNat - 48)) else acc

/-- C atoi: skip whitespace, read an optional sign, then a maximal digit
run; an input with no digits yields 0. -/
def atoi (s : List Char) : Int :=
  match skipSpaces s with
  | [] => 0
  | c :: rest =>
    if c = '-' then -(digitsVal rest 0 : Int)
    else if c = '+' then (digitsVal rest 0 : Int)
    else (digitsVal (c :: rest) 0 : Int)

/- ------------------------------------------------------------------ -/
/- MPIDI_parse_progress_thread_affinity                               -/
/- ------------------------------------------------------------------ -/

/-- Default-affinity loop of MPIDI_parse_progress_thread_affinity: for
th_idx below threads_per_node, assign proc_count - th_idx - 1 while
th_idx < proc_count, otherwise reuse the entry already stored at
th_idx % proc_count.  The array is built left to right exactly as the C
loop does, reading earlier entries. -/
def defaultAffinity (proc_count : Nat) (threads_per_node : Nat) : List Int :=
  (List.range threads_per_node).foldl
    (fun acc th_idx =>
      acc ++ [if th_idx < proc_count then ((proc_count - th_idx - 1 : Nat) : Int)
              else acc.getD (th_idx % proc_count) 0])
    []

/-- The explicit-parse loop of MPIDI_parse_progress_thread_affinity: for
each of the threads_per_node slots take the next MPL_strsep token; a
NULL token (string exhausted) or a token whose atoi value is negative
aborts with MPI_ERR_OTHER; otherwise the atoi value is stored. -/
def parseAffinityTokens : Option (List Char) → Nat → List Int → Except Unit (List Int)
  | _, 0, acc => Except.ok acc
  | tmp, n + 1, acc =>
    match strsep tmp with
    | none => Except.error ()
    | some (tok, rest) =>
      if atoi tok < 0 then Except.error ()
      else parseAffinityTokens rest n (acc ++ [atoi tok])

/-- MPIDI_parse_progress_thread_affinity.  A NULL or empty affinity
string takes the synthesized-default path (proc_count given by
MPL_get_nprocs); otherwise the string is tokenized and each token
converted by atoi, with the trailing read_count < threads_per_node
recheck of the C code retained. -/
def MPIDI_parse_progress_thread_affinity (affinity : Option (List Char))
    (threads_per_node : Nat) (nprocs : Nat) : Except Unit (List Int) :=
  match affinity with
  | none => Except.ok (defaultAffinity nprocs threads_per_node)
  | some a =>
    if a.length = 0 then Except.ok (defaultAffinity nprocs threads_per_node)
    else
      match parseAffinityTokens (some a) threads_per_node [] with
      | Except.error e => Except.error e
      | Except.ok l =>
        if l.length < threads_per_node then Except.error () else Except.ok l

/- ------------------------------------------------------------------ -/
/- MPIR_Init_async_thread                                             -/
/- ------------------------------------------------------------------ -/

/-- The rank and local_size fields of MPIR_Process.comm_world->node_comm. -/
structure NodeComm where
  rank : Nat
  local_size : Nat
deriving Repr, DecidableEq

/-- Environment read by MPIR_Init_async_thread: the CVARs, the shape of
comm_world, the processor count returned by MPL_get_nprocs, and the
outcomes of the two external thread primitives (MPID_Thread_create and
MPL_thread_set_affinity, whose error outputs the code branches on). -/
structure AsyncEnv where
  num_cliques_cvar : Int
  odd_even_cliques : Bool
  affinity_cvar : Option (List Char)
  world_rank : Nat
  world_local_size : Nat
  node_comm : Option NodeComm
  nprocs : Nat
  create_err : Int
  pin_err : Int
deriving Repr

/-- Observable outcome of MPIR_Init_async_thread: the returned errno,
whether a spawned progress thread is left running on return, the
threads_per_node used to size the affinity table, the table index passed
to MPL_thread_set_affinity when that call is reached, and the affinity
table contents on the paths where it was filled. -/
structure InitResult where
  mpi_errno : Int
  thread_running : Bool
  threads_per_node : Nat
  pin_index : Option Nat
  thread_affinity : List Int
deriving Repr, DecidableEq

/-- The condition the C code tests twice, MPIR_CVAR_CH4_PROGRESS_THREAD_AFFINITY
being non-NULL with strlen > 0: the user explicitly supplied an affinity
string. -/
def affinitySupplied (e : AsyncEnv) : Bool :=
  match e.affinity_cvar with
  | none => false
  | some a => a.length > 0

/-- The num_cliques computed at the top of MPIR_Init_async_thread from
MPIR_CVAR_NUM_CLIQUES and MPIR_CVAR_ODD_EVEN_CLIQUES. -/
def numCliques (e : AsyncEnv) : Int :=
  if e.num_cliques_cvar > 1 then e.num_cliques_cvar
  else if e.odd_even_cliques then 2 else 1

/-- local_rank as computed by MPIR_Init_async_thread: the rank in
node_comm, or 0 when comm_world has no node_comm. -/
def localRank (e : AsyncEnv) : Nat :=
  match e.node_comm with
  | some nc => nc.rank
  | none => 0

/-- The node-local size: node_comm local_size, or 1 when comm_world has
no node_comm. -/
def nodeLocalSize (e : AsyncEnv) : Nat :=
  match e.node_comm with
  | some nc => nc.local_size
  | none => 1

/-- The local_size chosen by MPIR_Init_async_thread, which becomes
threads_per_node and sizes the affinity table: comm_world local_size
when num_cliques > 1, the node-local size otherwise. -/
def asyncTableSize (e : AsyncEnv) : Nat :=
  if numCliques e > 1 then e.world_local_size else nodeLocalSize e

/-- MPIR_Init_async_thread.  Computes num_cliques, the rank/size data,
sizes the affinity table by threads_per_node, parses the affinity, spawns
the progress thread, and pins it; the MPIR_ERR_CHKANDJUMP macros turn a
non-zero subsidiary error into MPI_ERR_OTHER and jump to the shared
fn_fail/fn_exit tail, which only frees the table.  A pinning failure is
only checked when the user supplied an affinity string. -/
def MPIR_Init_async_thread (e : AsyncEnv) : InitResult :=
  let global_rank := e.world_rank
  let local_rank := localRank e
  let local_size := asyncTableSize e
  let threads_per_node := local_size
  match MPIDI_parse_progress_thread_affinity e.affinity_cvar threads_per_node e.nprocs with
  | Except.error _ =>
    { mpi_errno := MPI_ERR_OTHER, thread_running := false,
      threads_per_node := threads_per_node, pin_index := none, thread_affinity := [] }
  | Except.ok aff =>
    if e.create_err ≠ 0 then
      { mpi_errno := MPI_ERR_OTHER, thread_running := false,
        threads_per_node := threads_per_node, pin_index := none, thread_affinity := aff }
    else
      let affinity_idx := if numCliques e > 1 then global_rank else local_rank
      if affinitySupplied e ∧ e.pin_err ≠ 0 then
        { mpi_errno := MPI_ERR_OTHER, thread_running := true,
          threads_per_node := threads_per_node, pin_index := some affinity_idx,
          thread_affinity := aff }
      else
        { mpi_errno := MPI_SUCCESS, thread_running := true,
          threads_per_node := threads_per_node, pin_index := some affinity_idx,
          thread_affinity := aff }

/-- Whether the affinity parse performed by MPIR_Init_async_thread for
environment e succeeds. -/
def parseOk (e : AsyncEnv) : Bool :=
  match MPIDI_parse_progress_thread_affinity e.affinity_cvar (asyncTableSize e) e.nprocs with
  | Except.ok _ => true
  | Except.error _ => false

/-- The clique-partitioning override condition of the spec:
MPIR_CVAR_NUM_CLIQUES > 1 or MPIR_CVAR_ODD_EVEN_CLIQUES set. -/
def cliqueOverride (e : AsyncEnv) : Bool :=
  decide (e.num_cliques_cvar > 1) || e.odd_even_cliques

/- ------------------------------------------------------------------ -/
/- MPIR_Finalize_async_thread and progress_fn, as action traces       -/
/- ------------------------------------------------------------------ -/

/-- The externally visible actions of progress_fn and
MPIR_Finalize_async_thread, in the order the code performs them. -/
inductive PAct where
  | enterCS
  | progressStart
  | progressTest
  | yieldCS
  | progressEnd
  | exitCS
  | setStop
  | joinThread
deriving Repr, DecidableEq

/-- The while loop of progress_fn, driven by the successive values the
MPL_atomic_load_int of async_done returns: while the observation is 0
the body runs one MPID_Progress_test and one MPID_THREAD_CS_YIELD; the
first observation of a non-zero flag exits the loop immediately.  A
finite observation list bounds the behavior examined. -/
def progressLoopTrace : List Bool → List PAct
  | [] => []
  | b :: rest =>
    if b then []
    else PAct.progressTest :: PAct.yieldCS :: progressLoopTrace rest

/-- progress_fn: enter the GLOBAL critical section, MPID_Progress_start,
run the load/test/yield loop, then MPID_Progress_end, exit the critical
section and return. -/
def progress_fn (obs : List Bool) : List PAct :=
  PAct.enterCS :: PAct.progressStart ::
    (progressLoopTrace obs ++ [PAct.progressEnd, PAct.exitCS])

/-- MPIR_Finalize_async_thread: MPL_atomic_store_int(&async_done, 1)
followed by MPID_Thread_join, and nothing else. -/
def MPIR_Finalize_async_thread_trace : List PAct :=
  [PAct.setStop, PAct.joinThread]

/- ------------------------------------------------------------------ -/
/- MPII_init_async / MPII_finalize_async                              -/
/- ------------------------------------------------------------------ -/

/-- The file-static state the async-manager entry points read and write:
MPIR_async_thread_initialized, plus whether a progress thread is
currently running. -/
structure AsyncState where
  async_thread_initialized : Bool
  thread_running : Bool
deriving Repr, DecidableEq

/-- MPII_init_async.  When MPIR_CVAR_ASYNC_PROGRESS is set and the
provided thread level equals MPI_THREAD_MULTIPLE, it calls the device
hook MPID_Init_async_thread (an external collaborator, passed in as
dev) and on success sets MPIR_async_thread_initialized; when the level
is anything else it only prints a warning and returns MPI_SUCCESS.
Returns the new state, the errno, and whether the warning was printed. -/
def MPII_init_async (dev : AsyncState → AsyncState × Int)
    (async_progress : Bool) (thread_provided : Nat)
    (s : AsyncState) : AsyncState × Int × Bool :=
  if async_progress then
    if thread_provided = MPI_THREAD_MULTIPLE then
      let r := dev s
      if r.2 ≠ 0 then (r.1, r.2, false)
      else ({ r.1 with async_thread_initialized := true }, MPI_SUCCESS, false)
    else (s, MPI_SUCCESS, true)
  else (s, MPI_SUCCESS, false)

/-- MPII_finalize_async: calls the device hook MPID_Finalize_async_thread
(external, passed in as fin) only when MPIR_async_thread_initialized is
set, otherwise returns MPI_SUCCESS untouched. -/
def MPII_finalize_async (fin : AsyncState → AsyncState × Int)
    (s : AsyncState) : AsyncState × Int :=
  if s.async_thread_initialized then fin s else (s, MPI_SUCCESS)

/- ------------------------------------------------------------------ -/
/- The non-threaded build (the #else branch)                          -/
/- ------------------------------------------------------------------ -/

namespace NoThreads

/-- MPIR_Init_async_thread in a build without MPICH_IS_THREADED at
MPI_THREAD_MULTIPLE: returns MPI_SUCCESS, touching nothing. -/
def MPIR_Init_async_thread (s : AsyncState) : AsyncState × Int :=
  (s, MPI_SUCCESS)

/-- MPIR_Finalize_async_thread in the non-threaded build. -/
def MPIR_Finalize_async_thread (s : AsyncState) : AsyncState × Int :=
  (s, MPI_SUCCESS)

/-- MPII_init_async in the non-threaded build. -/
def MPII_init_async (s : AsyncState) : AsyncState × Int :=
  (s, MPI_SUCCESS)

/-- MPII_finalize_async in the non-threaded build. -/
def MPII_finalize_async (s : AsyncState) : AsyncState × Int :=
  (s, MPI_SUCCESS)

end NoThreads

/- ------------------------------------------------------------------ -/
/- MPIR_Comm_release                                                  -/
/- ------------------------------------------------------------------ -/

/-- The reference-count field of a communicator (from MPIR_OBJECT_HEADER),
the only state MPIR_Comm_release touches directly. -/
structure CommState where
  ref_count : Int
deriving Repr, DecidableEq

/-- Modelled from the spec: MPIR_Object_release_ref, whose definition is
outside this translation unit, decrements the reference count by one and
reports through in_use whether pending references remain, i.e. whether
the decremented count is non-zero. -/
def MPIR_Comm_release_ref (c : CommState) : CommState × Bool :=
  ({ ref_count := c.ref_count - 1 }, c.ref_count - 1 ≠ 0)

/-- Outcome of MPIR_Comm_release: the returned errno, the communicator
state after the decrement, and whether MPIR_Comm_delete_internal was
invoked. -/
structure ReleaseResult where
  mpi_errno : Int
  comm : CommState
  deleted : Bool
deriving Repr, DecidableEq

/-- MPIR_Comm_release: release one reference; when in_use comes back
false, call MPIR_Comm_delete_internal (an external collaborator, passed
in) and return its errno, otherwise return MPI_SUCCESS. -/
def MPIR_Comm_release (delete_internal : CommState → Int)
    (comm_ptr : CommState) : ReleaseResult :=
  let r := MPIR_Comm_release_ref comm_ptr
  if r.2 then
    { mpi_errno := MPI_SUCCESS, comm := r.1, deleted := false }
  else
    { mpi_errno := delete_internal r.1, comm := r.1, deleted := true }

/- ------------------------------------------------------------------ -/
/- Theorems                                                           -/
/- ------------------------------------------------------------------ -/

/-- C1: MPIR_Comm_release decrements the communicator's reference count
exactly once per call, and invokes MPIR_Comm_delete_internal if and only
if that decrement leaves no pending references (the count reaches zero);
when references remain, it performs no deletion and returns
MPI_SUCCESS. -/
theorem MPIR_Comm_release_spec (delete_internal : CommState → Int) (c : CommState) :
    (MPIR_Comm_release delete_internal c).comm.ref_count = c.ref_count - 1 ∧
    ((MPIR_Comm_release delete_internal c).deleted = true ↔ c.ref_count - 1 = 0) ∧
    (c.ref_count - 1 ≠ 0 →
      (MPIR_Comm_release delete_internal c).deleted = false ∧
      (MPIR_Comm_release delete_internal c).mpi_errno = MPI_SUCCESS) := by
  unfold MPIR_Comm_release MPIR_Comm_release_ref
  by_cases h : c.ref_count - 1 = 0 <;> simp [h]

/-- Witness for C1 at a communicator with two references: the release
leaves one reference, deletes nothing and returns MPI_SUCCESS. -/
theorem MPIR_Comm_release_spec_witness :
    (MPIR_Comm_release (fun _ => (7 : Int)) { ref_count := 2 }).deleted = false ∧
    (MPIR_Comm_release (fun _ => (7 : Int)) { ref_count := 2 }).mpi_errno = MPI_SUCCESS :=
  (MPIR_Comm_release_spec (fun _ => (7 : Int)) { ref_count := 2 }).2.2 (by decide)

/-- C2: when MPIR_CVAR_ASYNC_PROGRESS is set but the provided thread
level is below MPI_THREAD_MULTIPLE, MPII_init_async prints the warning,
creates no progress thread and changes no state, leaves
MPIR_async_thread_initialized unset, and returns MPI_SUCCESS; a
subsequent MPII_finalize_async on that state is a no-op returning
MPI_SUCCESS, whatever the device hooks would do. -/
theorem MPII_init_async_degrade (dev fin : AsyncState → AsyncState × Int)
    (thread_provided : Nat) (s : AsyncState)
    (hlt : thread_provided < MPI_THREAD_MULTIPLE)
    (hflag : s.async_thread_initialized = false) :
    MPII_init_async dev true thread_provided s = (s, MPI_SUCCESS, true) ∧
    MPII_finalize_async fin s = (s, MPI_SUCCESS) := by
  have hne : thread_provided ≠ MPI_THREAD_MULTIPLE := Nat.ne_of_lt hlt
  exact ⟨by simp [MPII_init_async, hne], by simp [MPII_finalize_async, hflag]⟩

/-- Witness for C2 at thread level MPI_THREAD_SERIALIZED (2) and the
initial state. -/
theorem MPII_init_async_degrade_witness :
    MPII_init_async (fun s => (s, 0)) true 2
        { async_thread_initialized := false, thread_running := false } =
      ({ async_thread_initialized := false, thread_running := false }, MPI_SUCCESS, true) ∧
    MPII_finalize_async (fun s => (s, 0))
        { async_thread_initialized := false, thread_running := false } =
      ({ async_thread_initialized := false, thread_running := false }, MPI_SUCCESS) :=
  MPII_init_async_degrade (fun s => (s, 0)) (fun s => (s, 0)) 2
    { async_thread_initialized := false, thread_running := false } (by decide) rfl

/-- The progress loop runs exactly one test-and-yield iteration per
observation of a zero stop flag and exits at the first non-zero
observation. -/
theorem progressLoopTrace_replicate (k : Nat) (rest : List Bool) :
    progressLoopTrace (List.replicate k false ++ true :: rest) =
      (List.replicate k [PAct.progressTest, PAct.yieldCS]).flatten := by
  induction k with
  | zero => simp [progressLoopTrace]
  | succ k ih => simpa [List.replicate_succ, progressLoopTrace] using ih

/-- C4: shutdown atomically sets the stop flag and only then joins the
thread, and the worker loop performs one progress-test iteration per
false observation of the stop flag; once the flag is observed true the
only remaining actions are ending the progress state, releasing the
global critical section and exiting — no further progress test. -/
theorem progress_fn_shutdown (k : Nat) (rest : List Bool) :
    progress_fn (List.replicate k false ++ true :: rest) =
      PAct.enterCS :: PAct.progressStart ::
        ((List.replicate k [PAct.progressTest, PAct.yieldCS]).flatten ++
          [PAct.progressEnd, PAct.exitCS]) ∧
    MPIR_Finalize_async_thread_trace = [PAct.setStop, PAct.joinThread] :=
  ⟨by simp [progress_fn, progressLoopTrace_replicate], rfl⟩

/-- C10: in a build without fully-concurrent thread support compiled in,
all four async-manager entry points return MPI_SUCCESS and leave the
state untouched. -/
theorem nothreads_all_noop (s : AsyncState) :
    NoThreads.MPIR_Init_async_thread s = (s, MPI_SUCCESS) ∧
    NoThreads.MPIR_Finalize_async_thread s = (s, MPI_SUCCESS) ∧
    NoThreads.MPII_init_async s = (s, MPI_SUCCESS) ∧
    NoThreads.MPII_finalize_async s = (s, MPI_SUCCESS) :=
  ⟨rfl, rfl, rfl, rfl⟩

/-- C5: given that the affinity parse and the thread creation succeeded
and the pinning step failed (thr_err non-zero), MPIR_Init_async_thread
returns an error exactly when the user explicitly supplied a non-empty
affinity string; with no affinity string supplied the pinning failure is
ignored and startup succeeds with the thread running. -/
theorem init_async_pin_failure_iff (e : AsyncEnv) (aff : List Int)
    (hp : MPIDI_parse_progress_thread_affinity e.affinity_cvar (asyncTableSize e) e.nprocs =
      Except.ok aff)
    (hc : e.create_err = 0) (hpin : e.pin_err ≠ 0) :
    ((MPIR_Init_async_thread e).mpi_errno ≠ MPI_SUCCESS ↔ affinitySupplied e = true) ∧
    (affinitySupplied e = false →
      (MPIR_Init_async_thread e).mpi_errno = MPI_SUCCESS ∧
      (MPIR_Init_async_thread e).thread_running = true) := by
  cases haf : affinitySupplied e with
  | false => simp [MPIR_Init_async_thread, hp, hc, haf, MPI_SUCCESS]
  | true => simp [MPIR_Init_async_thread, hp, hc, haf, hpin, MPI_SUCCESS, MPI_ERR_OTHER]

/-- Witness for C5: affinity "0,1", two node-local ranks, successful
creation, failed pinning. -/
theorem init_async_pin_failure_iff_witness :
    ((MPIR_Init_async_thread
        { num_cliques_cvar := 1, odd_even_cliques := false,
          affinity_cvar := some ['0', ',', '1'], world_rank := 0, world_local_size := 2,
          node_comm := some { rank := 0, local_size := 2 }, nprocs := 4,
          create_err := 0, pin_err := 1 }).mpi_errno ≠ MPI_SUCCESS ↔
      affinitySupplied
        { num_cliques_cvar := 1, odd_even_cliques := false,
          affinity_cvar := some ['0', ',', '1'], world_rank := 0, world_local_size := 2,
          node_comm := some { rank := 0, local_size := 2 }, nprocs := 4,
          create_err := 0, pin_err := 1 } = true) ∧
    (affinitySupplied
        { num_cliques_cvar := 1, odd_even_cliques := false,
          affinity_cvar := some ['0', ',', '1'], world_rank := 0, world_local_size := 2,
          node_comm := some { rank := 0, local_size := 2 }, nprocs := 4,
          create_err := 0, pin_err := 1 } = false →
      (MPIR_Init_async_thread
        { num_cliques_cvar := 1, odd_even_cliques := false,
          affinity_cvar := some ['0', ',', '1'], world_rank := 0, world_local_size := 2,
          node_comm := some { rank := 0, local_size := 2 }, nprocs := 4,
          create_err := 0, pin_err := 1 }).mpi_errno = MPI_SUCCESS ∧
      (MPIR_Init_async_thread
        { num_cliques_cvar := 1, odd_even_cliques := false,
          affinity_cvar := some ['0', ',', '1'], world_rank := 0, world_local_size := 2,
          node_comm := some { rank := 0, local_size := 2 }, nprocs := 4,
          create_err := 0, pin_err := 1 }).thread_running = true) :=
  init_async_pin_failure_iff _ [0, 1] rfl rfl (by decide)

/-- C3 counterexample: the affinity specification "0,1,2" has three
entries while only two threads are required — a count mismatch — and the
specification "x,1" contains the malformed entry "x"; in both cases
MPIR_Init_async_thread nevertheless returns MPI_SUCCESS and leaves the
progress thread running (atoi maps "x" to 0 and surplus tokens are never
read). -/
theorem init_async_parse_failure_counterexample :
    (MPIR_Init_async_thread
      { num_cliques_cvar := 1, odd_even_cliques := false,
        affinity_cvar := some ['0', ',', '1', ',', '2'], world_rank := 0,
        world_local_size := 2, node_comm := some { rank := 0, local_size := 2 },
        nprocs := 4, create_err := 0, pin_err := 0 }).mpi_errno = MPI_SUCCESS ∧
    (MPIR_Init_async_thread
      { num_cliques_cvar := 1, odd_even_cliques := false,
        affinity_cvar := some ['0', ',', '1', ',', '2'], world_rank := 0,
        world_local_size := 2, node_comm := some { rank := 0, local_size := 2 },
        nprocs := 4, create_err := 0, pin_err := 0 }).thread_running = true ∧
    (MPIR_Init_async_thread
      { num_cliques_cvar := 1, odd_even_cliques := false,
        affinity_cvar := some ['x', ',', '1'], world_rank := 0,
        world_local_size := 2, node_comm := some { rank := 0, local_size := 2 },
        nprocs := 4, create_err := 0, pin_err := 0 }).mpi_errno = MPI_SUCCESS := by
  decide

/-- C3 amended: whenever the affinity parse of the supplied specification
fails — as it does when one of the first N tokens atoi-converts to a
negative value or when the string holds fewer than N tokens, in
particular "0" with 2 required threads — MPIR_Init_async_thread returns
MPI_ERR_OTHER (non-success) and no progress thread is left running. -/
theorem init_async_parse_failure (e : AsyncEnv)
    (hp : MPIDI_parse_progress_thread_affinity e.affinity_cvar (asyncTableSize e) e.nprocs =
      Except.error ()) :
    (MPIR_Init_async_thread e).mpi_errno = MPI_ERR_OTHER ∧
    (MPIR_Init_async_thread e).mpi_errno ≠ MPI_SUCCESS ∧
    (MPIR_Init_async_thread e).thread_running = false := by
  simp [MPIR_Init_async_thread, hp, MPI_ERR_OTHER, MPI_SUCCESS]

/-- Witness for the amended C3: the string "0" with two required threads
(two node-local ranks) fails with no thread running. -/
theorem init_async_parse_failure_witness :
    (MPIR_Init_async_thread
      { num_cliques_cvar := 1, odd_even_cliques := false,
        affinity_cvar := some ['0'], world_rank := 0, world_local_size := 2,
        node_comm := some { rank := 0, local_size := 2 }, nprocs := 4,
        create_err := 0, pin_err := 0 }).mpi_errno = MPI_ERR_OTHER ∧
    (MPIR_Init_async_thread
      { num_cliques_cvar := 1, odd_even_cliques := false,
        affinity_cvar := some ['0'], world_rank := 0, world_local_size := 2,
        node_comm := some { rank := 0, local_size := 2 }, nprocs := 4,
        create_err := 0, pin_err := 0 }).mpi_errno ≠ MPI_SUCCESS ∧
    (MPIR_Init_async_thread
      { num_cliques_cvar := 1, odd_even_cliques := false,
        affinity_cvar := some ['0'], world_rank := 0, world_local_size := 2,
        node_comm := some { rank := 0, local_size := 2 }, nprocs := 4,
        create_err := 0, pin_err := 0 }).thread_running = false :=
  init_async_parse_failure _ rfl

/-- C6 counterexample: with the user-supplied affinity "0,1", successful
parse and thread creation but a failed pinning step,
MPIR_Init_async_thread returns a non-success error code while the
progress thread it spawned is left running. -/
theorem init_async_single_exit_counterexample :
    (MPIR_Init_async_thread
      { num_cliques_cvar := 1, odd_even_cliques := false,
        affinity_cvar := some ['0', ',', '1'], world_rank := 0, world_local_size := 2,
        node_comm := some { rank := 0, local_size := 2 }, nprocs := 4,
        create_err := 0, pin_err := 1 }).mpi_errno ≠ MPI_SUCCESS ∧
    (MPIR_Init_async_thread
      { num_cliques_cvar := 1, odd_even_cliques := false,
        affinity_cvar := some ['0', ',', '1'], world_rank := 0, world_local_size := 2,
        node_comm := some { rank := 0, local_size := 2 }, nprocs := 4,
        create_err := 0, pin_err := 1 }).thread_running = true := by
  decide

/-- C6 amended: a progress thread is left running on return exactly when
the affinity parse and the thread creation both succeeded — so the
affinity-parse and thread-creation error returns leave no thread behind —
while the returned code is MPI_SUCCESS exactly when additionally the
pinning step did not fail under a user-supplied affinity string; hence
the pinning-failure error return is the one non-success exit that leaves
the spawned thread running. -/
theorem init_async_single_exit (e : AsyncEnv) :
    (MPIR_Init_async_thread e).thread_running = (parseOk e && e.create_err == 0) ∧
    ((MPIR_Init_async_thread e).mpi_errno = MPI_SUCCESS ↔
      (parseOk e = true ∧ e.create_err = 0 ∧ (affinitySupplied e = true → e.pin_err = 0))) := by
  cases hp : MPIDI_parse_progress_thread_affinity e.affinity_cvar (asyncTableSize e) e.nprocs with
  | error u =>
    simp [MPIR_Init_async_thread, parseOk, hp, MPI_SUCCESS, MPI_ERR_OTHER]
  | ok aff =>
    by_cases hc : e.create_err = 0
    · by_cases hs : affinitySupplied e = true
      · by_cases hpin : e.pin_err = 0
        · simp [MPIR_Init_async_thread, parseOk, hp, hc, hs, hpin, MPI_SUCCESS, MPI_ERR_OTHER]
        · simp [MPIR_Init_async_thread, parseOk, hp, hc, hs, hpin, MPI_SUCCESS, MPI_ERR_OTHER]
      · have hs2 : affinitySupplied e = false := by
          cases h : affinitySupplied e
          · rfl
          · exact absurd h hs
        simp [MPIR_Init_async_thread, parseOk, hp, hc, hs2, MPI_SUCCESS, MPI_ERR_OTHER]
    · simp [MPIR_Init_async_thread, parseOk, hp, hc, MPI_SUCCESS, MPI_ERR_OTHER]

/-- Witness for the amended C6 at the pinning-failure input: the thread
is running (both predecessors succeeded) and the return code is not
MPI_SUCCESS (the pinning step failed under a supplied affinity). -/
theorem init_async_single_exit_witness :
    (MPIR_Init_async_thread
      { num_cliques_cvar := 1, odd_even_cliques := false,
        affinity_cvar := some ['1', ' ', '0'], world_rank := 1, world_local_size := 2,
        node_comm := some { rank := 1, local_size := 2 }, nprocs := 4,
        create_err := 0, pin_err := 3 }).thread_running =
      (parseOk
        { num_cliques_cvar := 1, odd_even_cliques := false,
          affinity_cvar := some ['1', ' ', '0'], world_rank := 1, world_local_size := 2,
          node_comm := some { rank := 1, local_size := 2 }, nprocs := 4,
          create_err := 0, pin_err := 3 } && ((0 : Int) == 0)) ∧
    ¬(MPIR_Init_async_thread
      { num_cliques_cvar := 1, odd_even_cliques := false,
        affinity_cvar := some ['1', ' ', '0'], world_rank := 1, world_local_size := 2,
        node_comm := some { rank := 1, local_size := 2 }, nprocs := 4,
        create_err := 0, pin_err := 3 }).mpi_errno = MPI_SUCCESS := by
  have h := init_async_single_exit
    { num_cliques_cvar := 1, odd_even_cliques := false,
      affinity_cvar := some ['1', ' ', '0'], world_rank := 1, world_local_size := 2,
      node_comm := some { rank := 1, local_size := 2 }, nprocs := 4,
      create_err := 0, pin_err := 3 }
  refine ⟨h.1, fun hsucc => ?_⟩
  have h2 := (h.2.mp hsucc).2.2 (by decide)
  exact absurd h2 (by decide)

/-- C9: MPIR_Init_async_thread sizes the affinity table by the global
communicator size and, when the pinning call is reached, indexes it with
the global rank when a clique-partitioning override is active
(MPIR_CVAR_NUM_CLIQUES > 1 or MPIR_CVAR_ODD_EVEN_CLIQUES); otherwise the
table is sized by the node-local size (1 with no node communicator) and
indexed by the node-local rank. -/
theorem init_async_affinity_indexing (e : AsyncEnv) :
    (MPIR_Init_async_thread e).threads_per_node =
      (if cliqueOverride e = true then e.world_local_size else nodeLocalSize e) ∧
    ((MPIR_Init_async_thread e).pin_index = none ∨
      (MPIR_Init_async_thread e).pin_index =
        some (if cliqueOverride e = true then e.world_rank else localRank e)) := by
  have hsize : asyncTableSize e =
      (if cliqueOverride e = true then e.world_local_size else nodeLocalSize e) := by
    unfold asyncTableSize numCliques cliqueOverride
    by_cases h1 : e.num_cliques_cvar > 1 <;> by_cases h2 : e.odd_even_cliques <;>
      simp [h1, h2]
  have hidx : (if numCliques e > 1 then e.world_rank else localRank e) =
      (if cliqueOverride e = true then e.world_rank else localRank e) := by
    unfold numCliques cliqueOverride
    by_cases h1 : e.num_cliques_cvar > 1 <;> by_cases h2 : e.odd_even_cliques <;>
      simp [h1, h2]
  rw [← hsize, ← hidx]
  cases hp : MPIDI_parse_progress_thread_affinity e.affinity_cvar (asyncTableSize e) e.nprocs with
  | error u =>
    refine ⟨?_, Or.inl ?_⟩ <;> simp [MPIR_Init_async_thread, hp]
  | ok aff =>
    by_cases hc : e.create_err = 0
    · by_cases hs : affinitySupplied e = true ∧ ¬e.pin_err = 0
      · refine ⟨?_, Or.inr ?_⟩ <;>
          simp [MPIR_Init_async_thread, hp, hc, hs]
      · refine ⟨?_, Or.inr ?_⟩ <;>
          simp [MPIR_Init_async_thread, hp, hc, hs]
    · refine ⟨?_, Or.inl ?_⟩ <;> simp [MPIR_Init_async_thread, hp, hc]

/-- One iteration of the default-affinity loop appends one entry to the
array built so far. -/
theorem defaultAffinity_succ (P n : Nat) :
    defaultAffinity P (n + 1) =
      defaultAffinity P n ++
        [if n < P then ((P - n - 1 : Nat) : Int)
         else (defaultAffinity P n).getD (n % P) 0] := by
  unfold defaultAffinity
  rw [List.range_succ, List.foldl_append]
  rfl

/-- The default-affinity array has one entry per thread slot. -/
theorem defaultAffinity_length (P n : Nat) : (defaultAffinity P n).length = n := by
  induction n with
  | zero => rfl
  | succ n ih => rw [defaultAffinity_succ]; simp [ih]

/-- Closed form of the default-affinity array: slot t holds processor
id P - (t mod P) - 1. -/
theorem defaultAffinity_getD (P : Nat) (hP : 1 ≤ P) :
    ∀ n t : Nat, t < n →
      (defaultAffinity P n).getD t 0 = ((P - t % P - 1 : Nat) : Int) := by
  intro n
  induction n with
  | zero => intro t ht; omega
  | succ n ih =>
    intro t ht
    rcases Nat.lt_or_ge t n with h | h
    · rw [defaultAffinity_succ, List.getD_append]
      · exact ih t h
      · rw [defaultAffinity_length]; exact h
    · have htn : t = n := by omega
      subst htn
      rw [defaultAffinity_succ, List.getD_append_right, defaultAffinity_length,
        Nat.sub_self]
      · by_cases hc : t < P
        · simp [hc, Nat.mod_eq_of_lt hc]
        · have hmod : t % P < P := Nat.mod_lt _ (by omega)
          have hlt : t % P < t := by omega
          rw [if_neg hc]
          simp only [List.getD_cons_zero]
          rw [ih (t % P) hlt, Nat.mod_mod_of_dvd t (dvd_refl P)]
      · rw [defaultAffinity_length]

/-- C7: with no affinity specification, for required thread count n and
detected processor count P at least 1, the synthesized affinity assigns
slot t the processor id P - 1 - t when t < P, and for t at or above P it
reuses the id already assigned to slot t mod P. -/
theorem default_affinity_assignment (P n t : Nat) (hP : 1 ≤ P) (ht : t < n) :
    (t < P → (defaultAffinity P n).getD t 0 = ((P - 1 - t : Nat) : Int)) ∧
    (P ≤ t →
      (defaultAffinity P n).getD t 0 = (defaultAffinity P n).getD (t % P) 0) := by
  constructor
  · intro h
    rw [defaultAffinity_getD P hP n t ht, Nat.mod_eq_of_lt h]
    congr 1
    omega
  · intro h
    have hmod : t % P < P := Nat.mod_lt _ (by omega)
    have hmn : t % P < n := by omega
    rw [defaultAffinity_getD P hP n t ht, defaultAffinity_getD P hP n (t % P) hmn,
      Nat.mod_mod_of_dvd t (dvd_refl P)]

/-- Witness for C7 with 2 processors and 5 thread slots: slot 1 gets
processor 0 directly, slot 3 wraps to the id of slot 3 mod 2 = 1. -/
theorem default_affinity_assignment_witness :
    (defaultAffinity 2 5).getD 1 0 = ((2 - 1 - 1 : Nat) : Int) ∧
    (defaultAffinity 2 5).getD 3 0 = (defaultAffinity 2 5).getD (3 % 2) 0 :=
  ⟨(default_affinity_assignment 2 5 1 (by decide) (by decide)).1 (by decide),
   (default_affinity_assignment 2 5 3 (by decide) (by decide)).2 (by decide)⟩

/-- The ten decimal digit characters, the alphabet of a well-formed
affinity entry. -/
def digitChars : List Char := ['0', '1', '2', '3', '4', '5', '6', '7', '8', '9']

/-- Render an affinity specification from its entries: the entries in
order, separated by single delimiter characters (ds holds the delimiter
between each adjacent pair). -/
def renderSpec : List (List Char) → List Char → List Char
  | [], _ => []
  | t :: _, [] => t
  | t :: ts, d :: ds => t ++ d :: renderSpec ts ds

/-- A decimal digit character is not a delimiter, not atoi whitespace,
not a sign character, and satisfies isDigit. -/
theorem digitChar_facts (c : Char) (h : c ∈ digitChars) :
    isDelim c = false ∧ isSpaceC c = false ∧ c ≠ '-' ∧ c ≠ '+' ∧ c.isDigit = true := by
  simp only [digitChars, List.mem_cons, List.not_mem_nil, or_false] at h
  rcases h with rfl | rfl | rfl | rfl | rfl | rfl | rfl | rfl | rfl | rfl <;> decide

/-- strsep on a string with no delimiter characters returns the whole
string as the token and NULLs the string pointer. -/
theorem strsepOnce_no_delim (t : List Char) (ht : ∀ c ∈ t, isDelim c = false) :
    strsepOnce t = (t, none) := by
  induction t with
  | nil => rfl
  | cons c cs ih =>
    have hc := ht c (List.mem_cons_self c cs)
    simp [strsepOnce, hc, ih (fun x hx => ht x (List.mem_cons_of_mem c hx))]

/-- strsep consumes exactly up to the first delimiter: on token ++
delimiter ++ rest it returns the token and positions the pointer at
rest. -/
theorem strsepOnce_append_delim (t : List Char) (ht : ∀ c ∈ t, isDelim c = false)
    (d : Char) (hd : isDelim d = true) (rest : List Char) :
    strsepOnce (t ++ d :: rest) = (t, some rest) := by
  induction t with
  | nil => simp [strsepOnce, hd]
  | cons c cs ih =>
    have hc := ht c (List.mem_cons_self c cs)
    simp [strsepOnce, hc, ih (fun x hx => ht x (List.mem_cons_of_mem c hx))]

/-- atoi of a nonempty all-digit token is its decimal value. -/
theorem atoi_digits (t : List Char) (h1 : t ≠ []) (h2 : ∀ c ∈ t, c ∈ digitChars) :
    atoi t = (digitsVal t 0 : Int) := by
  cases t with
  | nil => exact absurd rfl h1
  | cons c cs =>
    have hc := digitChar_facts c (h2 c (List.mem_cons_self c cs))
    have hskip : skipSpaces (c :: cs) = c :: cs := by
      simp [skipSpaces, hc.2.1]
    unfold atoi
    rw [hskip]
    simp [hc.2.2.1, hc.2.2.2.1]

/-- The explicit-parse loop, run over a rendered well-formed
specification with as many slots as entries, accepts every token and
appends the decimal values to the accumulator in order. -/
theorem parseAffinityTokens_render (toks : List (List Char)) (ds : List Char)
    (acc : List Int)
    (hlen : ds.length + 1 = toks.length)
    (htoks : ∀ t ∈ toks, t ≠ [] ∧ ∀ c ∈ t, c ∈ digitChars)
    (hds : ∀ d ∈ ds, isDelim d = true) :
    parseAffinityTokens (some (renderSpec toks ds)) toks.length acc =
      Except.ok (acc ++ toks.map (fun t => (digitsVal t 0 : Int))) := by
  induction toks generalizing ds acc with
  | nil => simp at hlen
  | cons t ts ih =>
    have ht := htoks t (List.mem_cons_self t ts)
    have hfree : ∀ c ∈ t, isDelim c = false :=
      fun c hc => (digitChar_facts c (ht.2 c hc)).1
    have hatoi : atoi t = (digitsVal t 0 : Int) := atoi_digits t ht.1 ht.2
    have hpos : ¬ atoi t < 0 := by rw [hatoi]; omega
    cases ds with
    | nil =>
      have hts : ts = [] := by
        simp only [List.length_nil, List.length_cons] at hlen
        exact List.eq_nil_of_length_eq_zero (by omega)
      subst hts
      show parseAffinityTokens (some (renderSpec [t] [])) 1 acc = _
      simp [renderSpec, parseAffinityTokens, strsep, strsepOnce_no_delim t hfree,
        hpos, hatoi]
    | cons d ds2 =>
      have hd := hds d (List.mem_cons_self d ds2)
      have hlen2 : ds2.length + 1 = ts.length := by
        simp only [List.length_cons] at hlen
        omega
      show parseAffinityTokens (some (renderSpec (t :: ts) (d :: ds2)))
        (ts.length + 1) acc = _
      have hrec := ih ds2 (acc ++ [(digitsVal t 0 : Int)]) hlen2
        (fun x hx => htoks x (List.mem_cons_of_mem t hx))
        (fun x hx => hds x (List.mem_cons_of_mem d hx))
      have hnn : ¬ ((digitsVal t 0 : Int) < 0) := by omega
      simp only [renderSpec, parseAffinityTokens, strsep,
        strsepOnce_append_delim t hfree d hd, hatoi, hnn, if_false, hrec,
        List.map_cons, List.append_assoc, List.singleton_append]

/-- C8: for every well-formed affinity specification of exactly N
nonempty decimal entries separated by single delimiter characters
(comma, space, tab or newline), parsing with N required threads succeeds
and yields the N decimal values in the order given. -/
theorem parse_wellformed_affinity (toks : List (List Char)) (ds : List Char)
    (nprocs : Nat)
    (hlen : ds.length + 1 = toks.length)
    (htoks : ∀ t ∈ toks, t ≠ [] ∧ ∀ c ∈ t, c ∈ digitChars)
    (hds : ∀ d ∈ ds, isDelim d = true) :
    MPIDI_parse_progress_thread_affinity (some (renderSpec toks ds)) toks.length
        nprocs =
      Except.ok (toks.map (fun t => (digitsVal t 0 : Int))) := by
  have hne : ¬ (renderSpec toks ds).length = 0 := by
    cases toks with
    | nil => simp at hlen
    | cons t ts =>
      have ht := htoks t (List.mem_cons_self t ts)
      cases ds with
      | nil =>
        show ¬ t.length = 0
        simpa [List.length_eq_zero] using ht.1
      | cons d ds2 =>
        show ¬ (t ++ d :: renderSpec ts ds2).length = 0
        simp
  show (if (renderSpec toks ds).length = 0 then
      Except.ok (defaultAffinity nprocs toks.length)
    else
      match parseAffinityTokens (some (renderSpec toks ds)) toks.length [] with
      | Except.error e => Except.error e
      | Except.ok l =>
        if l.length < toks.length then Except.error () else Except.ok l) = _
  rw [if_neg hne, parseAffinityTokens_render toks ds [] hlen htoks hds]
  simp

/-- Witness for C8: the specification "0,1" with 2 required threads
parses to the assignment [0, 1]. -/
theorem parse_wellformed_affinity_witness :
    MPIDI_parse_progress_thread_affinity (some ['0', ',', '1']) 2 4 =
      Except.ok [0, 1] := by
  have h := parse_wellformed_affinity [['0'], ['1']] [','] 4 (by decide) (by decide)
    (by decide)
  exact h

end Spec2Proof
